import Mathlib

/-!
# Gateway server

A shallow embedding of the payment request handler (`handlers/request_handler_payment.go`),
of the application bootstrap (`app.go`) and of the payment listener's `onPayment`
pipeline, together with the properties the specification states about them.

Conventions of the embedding:

* Go strings are Lean `String`s, `uint64` values are `Nat`s reduced modulo `2 ^ 64`
  where the source does arithmetic on them.
* A Go call returning `(value, err)` whose error is only logged is an `Option`:
  `none` stands for `err != nil`.
* Collaborators reached through interfaces (key parsing, address resolution, the
  ledger client, the transaction builder, JSON encoding) are fields of the handler
  structure. The ledger client answers as a function of the calls made before and
  of its argument, so two calls with the same argument may answer differently.
* Every handler run yields the ordered list of collaborator calls it made and the
  response helper it invoked.
-/

namespace Gateway

/-! ## Standard library functions used by the handler -/

/-- One iteration of the digit loop of `strconv.ParseUint(s, 10, 64)`: a byte that is
not a decimal digit is a syntax error, a value above `2 ^ 64 - 1` is a range error. -/
def parseUintStep (acc : Option Nat) (c : Char) : Option Nat :=
  match acc with
  | none => none
  | some n =>
    if c.isDigit then
      let n1 := n * 10 + (c.toNat - '0'.toNat)
      if n1 < 2 ^ 64 then some n1 else none
    else none

/-- The function `strconv.ParseUint(s, 10, 64)`; `none` stands for a non-nil error. The empty
string is a syntax error, and no sign and no underscore is accepted in base 10. -/
def ParseUint (s : String) : Option Nat :=
  match s.data with
  | [] => none
  | cs => cs.foldl parseUintStep (some 0)

/-- Whether `sub` occurs in `l` as a contiguous block. -/
def containsChars : List Char → List Char → Bool
  | [], sub => sub.isEmpty
  | c :: cs, sub => sub.isPrefixOf (c :: cs) || containsChars cs sub

/-- The function `strings.Contains(s, substr)`. -/
def stringsContains (s substr : String) : Bool :=
  containsChars s.data substr.data

/-! ## Data of the payment handler -/

deriving instance DecidableEq for Except

/-- The form values read by `Payment` with `r.PostFormValue`. -/
structure PaymentRequest where
  source : String
  destination : String
  amount : String
  asset_code : String
  asset_issuer : String
  memo_type : String
  memo : String
deriving DecidableEq, Repr

/-- The value returned by `AddressResolver.Resolve`: the handler reads `AccountId` and
dereferences the pointers `MemoType` and `Memo`. -/
structure ResolvedDestination where
  AccountId : String
  MemoType : Option String
  Memo : Option String
deriving DecidableEq, Repr

/-- The mutators given to `b.Payment` and `b.CreateAccount`. -/
inductive PaymentMutator where
  | Destination (AddressOrSeed : String)
  | CreditAmount (Code Issuer Amount : String)
  | NativeAmount (Amount : String)
deriving DecidableEq, Repr

/-- The transaction mutators the handler constructs. -/
inductive TransactionMutator where
  | SourceAccount (AddressOrSeed : String)
  | Sequence (Sequence : Nat)
  | Network (Passphrase : String)
  | Payment (muts : List PaymentMutator)
  | CreateAccount (muts : List PaymentMutator)
  | MemoID (Value : Nat)
  | MemoText (Value : String)
deriving DecidableEq, Repr

/-- The part of `horizon.AccountResponse` the handler reads. -/
structure AccountResponse where
  SequenceNumber : String
deriving DecidableEq, Repr

/-- The part of `horizon.SubmitTransactionResponse` the handler reads: the ledger number
(a pointer, nil when the ledger rejected the transaction) and the remaining result fields. -/
structure SubmitTransactionResponse where
  Ledger : Option Nat
  resultFields : String
deriving DecidableEq, Repr

/-- The value returned by `b.Transaction(mutators...)`: its `Err` field (the message of the
error, `none` for nil) and the outcome of `tx.Sign(seed).Base64()`. -/
structure TransactionBuilder where
  Err : Option String
  Base64 : String → Option String

/-- A call on a collaborator, in the order the handler makes them. -/
inductive Call where
  | Resolve (address : String)
  | LoadAccount (accountId : String)
  | Transaction (mutators : List TransactionMutator)
  | SubmitTransaction (txeB64 : String)
deriving DecidableEq, Repr

/-- What the handler does with the response writer: `w.Write(body)`, one of the helpers
`errorBadRequest(w, s)` and `errorServerError(w)`, or nothing because the handler
panicked on a nil pointer. -/
inductive Response where
  | Write (body : String)
  | errorBadRequest (errorString : String)
  | errorServerError
  | panic
deriving DecidableEq, Repr

/-- Modelled from the spec: the helpers `errorBadRequest` and `errorServerError` of package
handlers are not among the sources; the status they write follows their names and the
specification's mapping of rejections to 4xx (bad request) and of server errors to 5xx.
A plain `w.Write` answers 200, and a panic writes no status. -/
def Response.statusCode : Response → Option Nat
  | .Write _ => some 200
  | .errorBadRequest _ => some 400
  | .errorServerError => some 500
  | .panic => none

/-- The result of one run of a handler. -/
structure Outcome where
  calls : List Call
  response : Response
deriving DecidableEq, Repr

/-- The request handler with its collaborators. `keypairParse` is `keypair.Parse` followed by
`Address()`; `errorResponseString` is the package helper building the error body from a code
and a message. -/
structure RequestHandler where
  NetworkPassphrase : String
  keypairParse : String → Option String
  Resolve : String → Option ResolvedDestination
  LoadAccount : List Call → String → Option AccountResponse
  Transaction : List TransactionMutator → TransactionBuilder
  SubmitTransaction : List Call → String → Option SubmitTransactionResponse
  MarshalIndent : SubmitTransactionResponse → Option String
  errorResponseString : String → String → String

/-- The state of `Payment` once the operation is chosen (line 75 of the handler). -/
structure Prepared where
  calls : List Call
  sourceAddress : String
  destinationObject : ResolvedDestination
  operationBuilder : TransactionMutator
deriving DecidableEq, Repr

/-! ## The payment handler -/

/-- Lines 15 to 74 of `Payment`: source, destination and the choice of the operation. -/
def paymentOperation (rh : RequestHandler) (r : PaymentRequest) : Except Outcome Prepared :=
  match rh.keypairParse r.source with
  | none =>
    .error ⟨[], .errorBadRequest
      (rh.errorResponseString "invalid_source" "source parameter is invalid")⟩
  | some sourceAddress =>
    let calls := [Call.Resolve r.destination]
    match rh.Resolve r.destination with
    | none =>
      .error ⟨calls, .errorBadRequest
        (rh.errorResponseString "invalid_destination" "Cannot resolve destination")⟩
    | some destinationObject =>
      match rh.keypairParse destinationObject.AccountId with
      | none =>
        .error ⟨calls, .errorBadRequest
          (rh.errorResponseString "invalid_destination" "destination parameter is invalid")⟩
      | some _ =>
        if r.asset_code ≠ "" ∧ r.asset_issuer ≠ "" then
          match rh.keypairParse r.asset_issuer with
          | none =>
            .error ⟨calls, .errorBadRequest
              (rh.errorResponseString "invalid_issuer" "asset_issuer parameter is invalid")⟩
          | some issuerAddress =>
            .ok ⟨calls, sourceAddress, destinationObject,
              .Payment [.Destination destinationObject.AccountId,
                .CreditAmount r.asset_code issuerAddress r.amount]⟩
        else if r.asset_code = "" ∧ r.asset_issuer = "" then
          let mutators := [PaymentMutator.Destination destinationObject.AccountId,
            PaymentMutator.NativeAmount r.amount]
          let calls1 := calls ++ [Call.LoadAccount destinationObject.AccountId]
          match rh.LoadAccount calls destinationObject.AccountId with
          | none => .ok ⟨calls1, sourceAddress, destinationObject, .CreateAccount mutators⟩
          | some _ => .ok ⟨calls1, sourceAddress, destinationObject, .Payment mutators⟩
        else
          .error ⟨calls, .errorBadRequest
            (rh.errorResponseString "asset_missing_param"
              "When passing asser both params: `asset_code`, `asset_issuer` are required")⟩

/-- Lines 96 to 114 of `Payment`: the switch on the memo type. -/
def memoMutator (rh : RequestHandler) (memoType memo : String) :
    Except Response (Option TransactionMutator) :=
  if memoType = "" then .ok none
  else if memoType = "id" then
    match ParseUint memo with
    | none =>
      .error (.errorBadRequest
        (rh.errorResponseString "cannot_convert_memo_id" "Cannot convert memo_id value"))
    | some id => .ok (some (.MemoID id))
  else if memoType = "text" then .ok (some (.MemoText memo))
  else
    .error (.errorBadRequest
      (rh.errorResponseString "memo_not_supported" "Not supported memo type"))

/-- Lines 76 to 114 of `Payment`: the memo of the request, replaced by the memo of the
resolved destination when there is one. Dereferencing a nil `Memo` panics. -/
def paymentMemo (rh : RequestHandler) (r : PaymentRequest)
    (destinationObject : ResolvedDestination) : Except Response (Option TransactionMutator) :=
  if ¬ ((r.memo_type = "" ∧ r.memo = "") ∨ (r.memo_type ≠ "" ∧ r.memo ≠ "")) then
    .error (.errorBadRequest
      (rh.errorResponseString "memo_missing_param"
        "When passing memo both params: `memo_type`, `memo` are required"))
  else
    match destinationObject.MemoType with
    | none => memoMutator rh r.memo_type r.memo
    | some memoType =>
      if r.memo_type ≠ "" then
        .error (.errorBadRequest
          (rh.errorResponseString "cannot_use_memo"
            "Memo given in request but federation returned memo fields"))
      else
        match destinationObject.Memo with
        | none => .error .panic
        | some memo => memoMutator rh memoType memo

/-- Lines 130 to 139 of `Payment`: the mutators handed to the builder. -/
def transactionMutators (rh : RequestHandler) (source : String) (sequenceNumber : Nat)
    (operationBuilder : TransactionMutator) (memoMutator : Option TransactionMutator) :
    List TransactionMutator :=
  [.SourceAccount source, .Sequence ((sequenceNumber + 1) % 2 ^ 64),
    .Network rh.NetworkPassphrase, operationBuilder] ++
  (match memoMutator with
   | none => []
   | some m => [m])

/-- Lines 143 to 157 of `Payment`: the answer to a builder error with message `e`. -/
def builderErrorResponse (rh : RequestHandler) (e : String) : Response :=
  if e = "Asset code length is invalid" then
    .errorBadRequest (rh.errorResponseString "asset_code_invalid" "asset_code param is invalid")
  else if stringsContains e "cannot parse amount" then
    .errorBadRequest (rh.errorResponseString "invalid_amount" "amount is invalid")
  else .errorServerError

/-- Lines 116 to 187 of `Payment`: load the source account, build, sign and submit. -/
def paymentSubmit (rh : RequestHandler) (r : PaymentRequest) (p : Prepared)
    (memoMutator : Option TransactionMutator) : Outcome :=
  let calls1 := p.calls ++ [Call.LoadAccount p.sourceAddress]
  match rh.LoadAccount p.calls p.sourceAddress with
  | none =>
    ⟨calls1, .errorBadRequest
      (rh.errorResponseString "source_not_exist" "source account does not exist")⟩
  | some accountResponse =>
    match ParseUint accountResponse.SequenceNumber with
    | none => ⟨calls1, .errorServerError⟩
    | some sequenceNumber =>
      let mutators := transactionMutators rh r.source sequenceNumber p.operationBuilder memoMutator
      let tx := rh.Transaction mutators
      let calls2 := calls1 ++ [Call.Transaction mutators]
      match tx.Err with
      | some e => ⟨calls2, builderErrorResponse rh e⟩
      | none =>
        match tx.Base64 r.source with
        | none => ⟨calls2, .errorServerError⟩
        | some txeB64 =>
          let calls3 := calls2 ++ [Call.SubmitTransaction txeB64]
          match rh.SubmitTransaction calls2 txeB64 with
          | none => ⟨calls3, .errorServerError⟩
          | some submitResponse =>
            match rh.MarshalIndent submitResponse with
            | none => ⟨calls3, .errorServerError⟩
            | some response =>
              if submitResponse.Ledger ≠ none then ⟨calls3, .Write response⟩
              else ⟨calls3, .errorBadRequest response⟩

/-- The handler `RequestHandler.Payment`. -/
def Payment (rh : RequestHandler) (r : PaymentRequest) : Outcome :=
  match paymentOperation rh r with
  | .error out => out
  | .ok p =>
    match paymentMemo rh r p.destinationObject with
    | .error resp => ⟨p.calls, resp⟩
    | .ok memoMutator => paymentSubmit rh r p memoMutator

/-! ## Application bootstrap (`app.go`) -/

/-- The struct `config.Accounts`. -/
structure Accounts where
  AuthorizingSeed : Option String
  IssuingSeed : Option String
  ReceivingAccountId : Option String
deriving DecidableEq, Repr

/-- The struct `config.Hooks`. -/
structure Hooks where
  Receive : Option String
  Error : Option String
deriving DecidableEq, Repr

/-- The anonymous struct of the field `Database` of `config.Config`; `Type_` is its field
`Type`. -/
structure Database where
  Type_ : String
  Url : String
deriving DecidableEq, Repr

/-- The struct `config.Config`; a nil pointer is `none`. -/
structure Config where
  Port : Option Int
  Horizon : Option String
  ApiKey : String
  NetworkPassphrase : String
  Assets : List String
  Database : Database
  Accounts : Option Accounts
  Hooks : Option Hooks
deriving DecidableEq, Repr

/-- The constructors `NewApp` calls, each reduced to the error it returns (`none` for nil).
`InitAccount` answers as a function of the seeds initialised before and of its seed. -/
structure Constructors where
  NewEntityManager : String → String → Option String
  NewRepository : String → String → Option String
  InitAccount : List String → String → Option String
  NewPaymentListener : Config → Option String
  Listen : Option String

/-- The struct `App`, reduced to its configuration: its other fields are the collaborators
constructed by `NewApp`. -/
structure App where
  config : Config
deriving DecidableEq, Repr

/-- The pair `(app, err)` returned by `NewApp`: an application with a nil error, a nil
application with an error, or a panic on a nil pointer of the configuration. -/
inductive NewAppResult where
  | app (a : App)
  | err (e : String)
  | panic
deriving DecidableEq, Repr

/-- Lines 76 to 92 of `NewApp`: the payment listener is created and started when a receiving
account and a receive hook are configured. -/
def startListener (d : Constructors) (config : Config) (accounts : Accounts) :
    Except NewAppResult Unit :=
  match accounts.ReceivingAccountId with
  | none => .ok ()
  | some _ =>
    match config.Hooks with
    | none => .error .panic
    | some hooks =>
      match hooks.Receive with
      | none => .ok ()
      | some _ =>
        match d.NewPaymentListener config with
        | some e => .error (.err e)
        | none =>
          match d.Listen with
          | some e => .error (.err e)
          | none => .ok ()

/-- The function `NewApp`. The check of `err` after `NewTransactionSubmitter` never fires,
`err` being nil there, and is left out. -/
def NewApp (d : Constructors) (config : Config) : NewAppResult :=
  match d.NewEntityManager config.Database.Type_ config.Database.Url with
  | some e => .err e
  | none =>
    match d.NewRepository config.Database.Type_ config.Database.Url with
    | some e => .err e
    | none =>
      match config.Horizon with
      | none => .panic
      | some _ =>
        let config :=
          if config.NetworkPassphrase = "" then
            { config with NetworkPassphrase := "Test SDF Network ; September 2015" }
          else config
        match config.Accounts with
        | none => .panic
        | some accounts =>
          let errAuthorizing :=
            match accounts.AuthorizingSeed with
            | none => none
            | some seed => d.InitAccount [] seed
          match errAuthorizing with
          | some e => .err e
          | none =>
            let errIssuing :=
              match accounts.IssuingSeed with
              | none => none
              | some seed => d.InitAccount accounts.AuthorizingSeed.toList seed
            match errIssuing with
            | some e => .err e
            | none =>
              match startListener d config accounts with
              | .error res => res
              | .ok () =>
                if 0 < config.ApiKey.utf8ByteSize ∧ config.ApiKey.utf8ByteSize < 15 then
                  .err "api-key have to be at least 15 chars long."
                else .app ⟨config⟩

/-- What `Serve` sets up before `goji.Serve()`: the port it binds, the middlewares it uses and
the paths it registers with `goji.Post`, in order. -/
structure Served where
  port : Int
  middlewares : List String
  routes : List String
deriving DecidableEq, Repr

/-- The method `App.Serve`; `none` is a panic on a nil pointer of the configuration. -/
def Serve (a : App) : Option Served :=
  match a.config.Port with
  | none => none
  | some port =>
    match a.config.Accounts with
    | none => none
    | some accounts =>
      some
        { port := port
          middlewares :=
            ["StripTrailingSlashMiddleware", "HeadersMiddleware"] ++
              (if a.config.ApiKey ≠ "" then ["ApiKeyMiddleware"] else [])
          routes :=
            (if accounts.AuthorizingSeed ≠ none then ["/authorize"] else []) ++
            (if accounts.IssuingSeed ≠ none then ["/send"] else []) ++
            ["/payment"] }

/-! ## The payment listener

The listener's source is not part of the sources at hand, only its test is; `onPayment` is
modelled from the specification's pipeline (section 4.3) and from the test's fixtures. -/

/-- The memo of an operation. -/
structure Memo where
  Type_ : String
  Value : String
deriving DecidableEq, Repr

/-- The operation record `horizon.PaymentResponse`, with the fields the specification lists
for the payment stream; `Type_` is its field `Type`. -/
structure PaymentResponse where
  Id : String
  Type_ : String
  From : String
  To : String
  Amount : String
  AssetCode : String
  AssetIssuer : String
  PagingToken : String
deriving DecidableEq, Repr

/-- The record `db.ReceivedPayment`; `ProcessedAt` is a time stamp. -/
structure ReceivedPayment where
  OperationId : String
  ProcessedAt : Nat
  PagingToken : String
  Status : String
deriving DecidableEq, Repr

/-- Modelled from the spec: the listener of `NewPaymentListener`, whose source is missing,
with the configuration it consumes and its collaborators: the clock value `now`,
`LoadMemo` (`none` is a lookup failure, `some none` a transaction without memo), the POST to
the receive hook (`none` is a transport error, otherwise the status code) and `Persist`
(the error it returns, `none` for nil). -/
structure PaymentListener where
  ReceivingAccountId : String
  Assets : List String
  Issuers : List String
  ReceiveHook : String
  now : Nat
  LoadMemo : PaymentResponse → Option (Option Memo)
  PostForm : String → List (String × String) → Option Nat
  Persist : ReceivedPayment → Option String

/-- What one run of `onPayment` did: the forms posted to the receive hook, the records given
to `Persist`, and the error returned (`none` for success). -/
structure ListenerOutcome where
  posted : List (List (String × String))
  persisted : List ReceivedPayment
  err : Option String
deriving DecidableEq, Repr

/-- Modelled from the spec: step 3 of the pipeline of `onPayment`, whose source is missing:
"Asset issuer present and not in the configured allow-list, or asset code present and not in
the configured allow-list". -/
def assetNotAllowed (pl : PaymentListener) (operation : PaymentResponse) : Bool :=
  (operation.AssetIssuer ≠ "" && !pl.Issuers.contains operation.AssetIssuer) ||
  (operation.AssetCode ≠ "" && !pl.Assets.contains operation.AssetCode)

/-- Modelled from the spec: the terminal step "persist, return success" of `onPayment`, whose
source is missing: the record carries the operation's id and paging token, the clock's value
and the status; a storage failure is returned to the caller. -/
def settle (pl : PaymentListener) (operation : PaymentResponse)
    (posted : List (List (String × String))) (status : String) : ListenerOutcome :=
  let dbPayment : ReceivedPayment := ⟨operation.Id, pl.now, operation.PagingToken, status⟩
  ⟨posted, [dbPayment], pl.Persist dbPayment⟩

/-- Modelled from the spec: the method `PaymentListener.onPayment`, whose source is missing
(only its test is at hand). The six steps of section 4.3 in their order, each terminal; a
memo lookup failure, a transport error and a status outside 200 to 299 return an error
without persisting. -/
def onPayment (pl : PaymentListener) (operation : PaymentResponse) : ListenerOutcome :=
  if operation.Type_ ≠ "payment" then settle pl operation [] "Not a payment operation"
  else if operation.To ≠ pl.ReceivingAccountId then
    settle pl operation [] "Operation sent not received"
  else if assetNotAllowed pl operation then settle pl operation [] "Asset not allowed"
  else
    match pl.LoadMemo operation with
    | none => ⟨[], [], some "Unable to load transaction memo"⟩
    | some none => settle pl operation [] "Transaction does not have memo"
    | some (some memo) =>
      let form := [("id", operation.Id), ("from", operation.From),
        ("amount", operation.Amount), ("asset_code", operation.AssetCode),
        ("memo_type", memo.Type_), ("memo", memo.Value)]
      match pl.PostForm pl.ReceiveHook form with
      | none => ⟨[form], [], some "Error sending request to receive hook"⟩
      | some status =>
        if 200 ≤ status ∧ status < 300 then settle pl operation [form] "Success"
        else ⟨[form], [], some "Error response from receive hook"⟩

/-! ## Middlewares (`handlers/middlewares.go`) -/

/-- The middleware `StripTrailingSlashMiddleware` around the handler `next`, as a function of
the request's path `r.URL.Path`. The length `l` is the length in bytes; the byte of `'/'`
occurs in a UTF-8 string only as the character `'/'`, so the last byte is `'/'` exactly when
the last character is, and `path[0 : l-1]` then drops that character. -/
def StripTrailingSlashMiddleware {α : Type} (next : String → α) (path : String) : α :=
  let l := path.utf8ByteSize
  if 1 < l ∧ path.data.getLast? = some '/' then next ⟨path.data.dropLast⟩
  else next path

/-! ## Configuration (`config/config.go`) -/

/-- The type `url.Values`, a map from keys to lists of values, as the list of its entries. -/
abbrev Values := List (String × List String)

/-- The method `Values.Set`: the key's values are replaced by the one value. -/
def Values.Set (v : Values) (key value : String) : Values :=
  (key, [value]) :: v.filter (fun entry => entry.1 ≠ key)

/-- The table `upperhex` of package `net/url`, indexed by a number below 16. -/
def upperhex (n : Nat) : Char :=
  "0123456789ABCDEF".data.getD n '0'

/-- One byte of `url.QueryEscape`: letters, digits and `-`, `_`, `.`, `~` are kept, a space
becomes `+`, every other byte is written `%XX`. -/
def escapeByte (b : UInt8) : List Char :=
  let c := Char.ofNat b.toNat
  if c.isAlphanum ∨ c = '-' ∨ c = '_' ∨ c = '.' ∨ c = '~' then [c]
  else if c = ' ' then ['+']
  else ['%', upperhex (b.toNat / 16), upperhex (b.toNat % 16)]

/-- The function `url.QueryEscape`, on the UTF-8 bytes of the string. -/
def QueryEscape (s : String) : String :=
  ⟨(s.data.flatMap String.utf8EncodeChar).flatMap escapeByte⟩

/-- The `key=value` pieces that `Values.Encode` joins with `&`: the keys in sorted order (the
order of their characters, which is the order of their UTF-8 bytes), each with its values in
their order, both escaped. -/
def Values.components (v : Values) : List String :=
  (v.insertionSort (fun a b => ¬ b.1.data < a.1.data)).flatMap
    (fun entry => entry.2.map (fun value => QueryEscape entry.1 ++ "=" ++ QueryEscape value))

/-- The method `Values.Encode`. -/
def Values.Encode (v : Values) : String :=
  "&".intercalate v.components

/-- The struct `url.URL`, reduced to the field `RawQuery` that `Validate` writes; `other`
stands for all its other fields. -/
structure URL where
  other : String
  RawQuery : String
deriving DecidableEq, Repr

/-- The library functions `Validate` calls: `url.Parse` (`none` for an error),
`url.ParseQuery` as used by `URL.Query` (its error dropped), `URL.String`, and
`keypair.Parse` followed by `Address()`. -/
structure Parsers where
  urlParse : String → Option URL
  ParseQuery : String → Values
  urlString : URL → String
  keypairParse : String → Option String

/-- The switch on `c.Database.Type` of `Validate`: for `mysql` the url gets the query
parameter `parseTime=true`; another type than the three known ones is an error. -/
def validateDatabaseType (lib : Parsers) (c : Config) (dbUrl : URL) : Except String Config :=
  if c.Database.Type_ = "mysql" then
    let query := (lib.ParseQuery dbUrl.RawQuery).Set "parseTime" "true"
    let dbUrl := { dbUrl with RawQuery := query.Encode }
    .ok { c with Database := { c.Database with Url := lib.urlString dbUrl } }
  else if c.Database.Type_ = "postgres" then .ok c
  else if c.Database.Type_ = "sqlite3" then .ok c
  else .error "Invalid database.type param"

/-- The check of `c.Accounts` of `Validate`: the error it finds, `none` for nil. -/
def validateAccounts (lib : Parsers) (c : Config) : Option String :=
  match c.Accounts with
  | none => none
  | some accounts =>
    if accounts.AuthorizingSeed.any (fun seed => (lib.keypairParse seed).isNone) then
      some "accounts.authorizing_seed is invalid"
    else if accounts.IssuingSeed.any (fun seed => (lib.keypairParse seed).isNone) then
      some "accounts.issuing_seed is invalid"
    else if accounts.ReceivingAccountId.any (fun id => (lib.keypairParse id).isNone) then
      some "accounts.receiving_account_id is invalid"
    else none

/-- The check of `c.Hooks` of `Validate`: the error it finds, `none` for nil. -/
def validateHooks (lib : Parsers) (c : Config) : Option String :=
  match c.Hooks with
  | none => none
  | some hooks =>
    if hooks.Receive.any (fun hook => (lib.urlParse hook).isNone) then
      some "Cannot parse hooks.receive param"
    else if hooks.Error.any (fun hook => (lib.urlParse hook).isNone) then
      some "Cannot parse hooks.error param"
    else none

/-- The method `Config.Validate`: the configuration as the method leaves it, and the error
it returns (`none` for nil). -/
def Validate (lib : Parsers) (c : Config) : Config × Option String :=
  match c.Port with
  | none => (c, some "port param is required")
  | some _ =>
    match c.Horizon with
    | none => (c, some "horizon param is required")
    | some horizon =>
      match lib.urlParse horizon with
      | none => (c, some "Cannot parse horizon param")
      | some _ =>
        if c.NetworkPassphrase = "" then (c, some "network_passphrase param is required")
        else
          match lib.urlParse c.Database.Url with
          | none => (c, some "Cannot parse database.url param")
          | some dbUrl =>
            match validateDatabaseType lib c dbUrl with
            | .error e => (c, some e)
            | .ok c =>
              match validateAccounts lib c with
              | some e => (c, some e)
              | none => (c, validateHooks lib c)

/-! ## A sample deployment of the payment handler

The accounts are the ones of the listener test: the issuing seed with its address, and the
receiving account. The sample builder refuses a text memo longer than 28 bytes, as the
builder's test `MemoText` requires. -/

/-- A builder that reports an error exactly for a text memo longer than 28 bytes. -/
def sampleTransaction (mutators : List TransactionMutator) : TransactionBuilder where
  Err :=
    if mutators.any (fun m =>
        match m with
        | .MemoText v => decide (28 < v.utf8ByteSize)
        | _ => false)
    then some "Memo too long; over 28 bytes" else none
  Base64 := fun seed => some ("envelope signed by " ++ seed)

/-- A handler whose ledger knows the source account at sequence 41 and accepts every
transaction in ledger 1234. -/
def sampleHandler : RequestHandler where
  NetworkPassphrase := "Test SDF Network ; September 2015"
  keypairParse := fun s =>
    if s = "SC34WILLHVADXMP6ACPMIRA6TRAWJMVCLPFNW7S6MUMXJVLAZUC4EWHP" then
      some "GD4I7AFSLZGTDL34TQLWJOM2NHLIIOEKD5RHHZUW54HERBLSIRKUOXRR"
    else if s = "GATKP6ZQM5CSLECPMTAC5226PE367QALCPM6AFHTSULPPZMT62OOPMQB" then some s
    else none
  Resolve := fun address =>
    if address = "bob*example.com" then
      some ⟨"GATKP6ZQM5CSLECPMTAC5226PE367QALCPM6AFHTSULPPZMT62OOPMQB", some "id", some "7"⟩
    else some ⟨address, none, none⟩
  LoadAccount := fun _ accountId =>
    if accountId = "GD4I7AFSLZGTDL34TQLWJOM2NHLIIOEKD5RHHZUW54HERBLSIRKUOXRR" then some ⟨"41"⟩
    else none
  Transaction := sampleTransaction
  SubmitTransaction := fun _ txeB64 => some ⟨some 1234, txeB64⟩
  MarshalIndent := fun submitResponse => some submitResponse.resultFields
  errorResponseString := fun code message => code ++ ": " ++ message

/-- The sample handler in front of a ledger that rejects every transaction: the answer of
`SubmitTransaction` carries no ledger number. -/
def rejectingHandler : RequestHandler :=
  { sampleHandler with
    SubmitTransaction := fun _ _ => some ⟨none, "tx_insufficient_balance"⟩ }

/-- A native payment of 200 with the text memo `testing`. -/
def sampleRequest : PaymentRequest where
  source := "SC34WILLHVADXMP6ACPMIRA6TRAWJMVCLPFNW7S6MUMXJVLAZUC4EWHP"
  destination := "GATKP6ZQM5CSLECPMTAC5226PE367QALCPM6AFHTSULPPZMT62OOPMQB"
  amount := "200"
  asset_code := ""
  asset_issuer := ""
  memo_type := "text"
  memo := "testing"

/-- The sample request with a text memo of 29 bytes. -/
def longMemoRequest : PaymentRequest :=
  { sampleRequest with memo := "12345678901234567890123456789" }

/-- The state of the handler on the sample requests once the operation is chosen. -/
def samplePrepared : Prepared where
  calls := [.Resolve "GATKP6ZQM5CSLECPMTAC5226PE367QALCPM6AFHTSULPPZMT62OOPMQB",
    .LoadAccount "GATKP6ZQM5CSLECPMTAC5226PE367QALCPM6AFHTSULPPZMT62OOPMQB"]
  sourceAddress := "GD4I7AFSLZGTDL34TQLWJOM2NHLIIOEKD5RHHZUW54HERBLSIRKUOXRR"
  destinationObject := ⟨"GATKP6ZQM5CSLECPMTAC5226PE367QALCPM6AFHTSULPPZMT62OOPMQB", none, none⟩
  operationBuilder := .CreateAccount
    [.Destination "GATKP6ZQM5CSLECPMTAC5226PE367QALCPM6AFHTSULPPZMT62OOPMQB", .NativeAmount "200"]

/-- The mutators the handler builds for `longMemoRequest`. -/
def longMemoMutators : List TransactionMutator :=
  [.SourceAccount "SC34WILLHVADXMP6ACPMIRA6TRAWJMVCLPFNW7S6MUMXJVLAZUC4EWHP", .Sequence 42,
    .Network "Test SDF Network ; September 2015", samplePrepared.operationBuilder,
    .MemoText "12345678901234567890123456789"]

/-- The mutators the handler builds for `sampleRequest`. -/
def sampleMutators : List TransactionMutator :=
  [.SourceAccount "SC34WILLHVADXMP6ACPMIRA6TRAWJMVCLPFNW7S6MUMXJVLAZUC4EWHP", .Sequence 42,
    .Network "Test SDF Network ; September 2015", samplePrepared.operationBuilder,
    .MemoText "testing"]

/-- The calls the handler makes on `sampleRequest` before it submits. -/
def sampleHistory : List Call :=
  samplePrepared.calls ++
    [.LoadAccount "GD4I7AFSLZGTDL34TQLWJOM2NHLIIOEKD5RHHZUW54HERBLSIRKUOXRR",
      .Transaction sampleMutators]

/-- The envelope the sample builder produces for `sampleRequest`. -/
def sampleEnvelope : String :=
  "envelope signed by SC34WILLHVADXMP6ACPMIRA6TRAWJMVCLPFNW7S6MUMXJVLAZUC4EWHP"

/-- The federated request without a memo of its own. -/
def federatedRequestNoMemo : PaymentRequest :=
  { sampleRequest with destination := "bob*example.com", memo_type := "", memo := "" }

/-- The sample handler in front of a resolver that answers with the memo type `hash` and
no memo value: the pointer `MemoType` is set and the pointer `Memo` is nil. -/
def nilMemoHandler : RequestHandler :=
  { sampleHandler with
    Resolve := fun _ =>
      some ⟨"GATKP6ZQM5CSLECPMTAC5226PE367QALCPM6AFHTSULPPZMT62OOPMQB", some "hash", none⟩ }

/-- The sample request with a memo of type `hash`. -/
def hashMemoRequest : PaymentRequest :=
  { sampleRequest with memo_type := "hash" }

/-! ## A sample deployment of the application and of the listener -/

/-- A configuration with both managed accounts. -/
def sampleConfig : Config where
  Port := some 8001
  Horizon := some "http://localhost:8000"
  ApiKey := ""
  NetworkPassphrase := "Test SDF Network ; September 2015"
  Assets := ["USD", "EUR"]
  Database := ⟨"sqlite3", "gateway.db"⟩
  Accounts := some
    { AuthorizingSeed := some "SDRTXYMVIAJSCXIJEUTKJ2GJ5XJSXMIXUDYIGBCGM4WSHAQDOBAHXWIL"
      IssuingSeed := some "SC34WILLHVADXMP6ACPMIRA6TRAWJMVCLPFNW7S6MUMXJVLAZUC4EWHP"
      ReceivingAccountId := none }
  Hooks := none

/-- Constructors that all succeed, except that the authorizing account does not exist on
the ledger. -/
def sampleConstructors : Constructors where
  NewEntityManager := fun _ _ => none
  NewRepository := fun _ _ => none
  InitAccount := fun _ seed =>
    if seed = "SDRTXYMVIAJSCXIJEUTKJ2GJ5XJSXMIXUDYIGBCGM4WSHAQDOBAHXWIL" then
      some "account does not exist"
    else none
  NewPaymentListener := fun _ => none
  Listen := none

/-- The listener of the test, in front of a receive hook that answers 503. -/
def sampleListener : PaymentListener where
  ReceivingAccountId := "GATKP6ZQM5CSLECPMTAC5226PE367QALCPM6AFHTSULPPZMT62OOPMQB"
  Assets := ["USD", "EUR"]
  Issuers := ["GD4I7AFSLZGTDL34TQLWJOM2NHLIIOEKD5RHHZUW54HERBLSIRKUOXRR"]
  ReceiveHook := "http://localhost/receive"
  now := 1467331200
  LoadMemo := fun _ => some (some ⟨"text", "testing"⟩)
  PostForm := fun _ _ => some 503
  Persist := fun _ => none

/-- The sample listener in front of a receive hook that answers 200. -/
def acceptingListener : PaymentListener :=
  { sampleListener with PostForm := fun _ _ => some 200 }

/-- The operation of the test: a payment of 200 USD to the receiving account. -/
def sampleOperation : PaymentResponse where
  Id := "1"
  Type_ := "payment"
  From := "GBIHSMPXC2KJ3NJVHEYTG3KCHYEUQRT45X6AWYWXMAXZOAX4F5LFZYYQ"
  To := "GATKP6ZQM5CSLECPMTAC5226PE367QALCPM6AFHTSULPPZMT62OOPMQB"
  Amount := "200"
  AssetCode := "USD"
  AssetIssuer := "GD4I7AFSLZGTDL34TQLWJOM2NHLIIOEKD5RHHZUW54HERBLSIRKUOXRR"
  PagingToken := "2"

/-! ## A sample configuration for `Validate` -/

/-- Parsers for which every non-empty string is a url with an empty query, and which write
a url with a query by putting `?` before the query. -/
def sampleParsers : Parsers where
  urlParse := fun s => if s = "" then none else some ⟨s, ""⟩
  ParseQuery := fun _ => []
  urlString := fun u => if u.RawQuery = "" then u.other else u.other ++ "?" ++ u.RawQuery
  keypairParse := sampleHandler.keypairParse

/-- The sample configuration on a mysql database. -/
def mysqlConfig : Config :=
  { sampleConfig with
    Database := ⟨"mysql", "mysql://root@localhost/gateway"⟩
    Accounts := none }

/-! ## Helper lemmas -/

theorem parseUintStep_lt (acc : Option Nat) (c : Char) (n : Nat)
    (h : parseUintStep acc c = some n) : n < 2 ^ 64 := by
  unfold parseUintStep at h
  split at h
  · simp at h
  · split at h
    · simp only at h
      split at h
      · cases h; assumption
      · simp at h
    · simp at h

theorem foldl_parseUintStep_lt (cs : List Char) (acc : Option Nat)
    (hacc : ∀ a, acc = some a → a < 2 ^ 64) (n : Nat)
    (h : cs.foldl parseUintStep acc = some n) : n < 2 ^ 64 := by
  induction cs generalizing acc with
  | nil => exact hacc n (by simpa using h)
  | cons c cs ih =>
    rw [List.foldl_cons] at h
    exact ih (parseUintStep acc c) (fun a ha => parseUintStep_lt acc c a ha) h

/-- A parsed value fits in 64 bits. -/
theorem ParseUint_lt (s : String) (n : Nat) (h : ParseUint s = some n) : n < 2 ^ 64 := by
  unfold ParseUint at h
  split at h
  · simp at h
  · exact foldl_parseUintStep_lt _ (some 0) (fun a ha => by cases ha; norm_num) n h

/-- A request refused before the memo is read has called nothing but the resolver. -/
theorem paymentOperation_error_calls (rh : RequestHandler) (r : PaymentRequest) (out : Outcome)
    (h : paymentOperation rh r = .error out) :
    ∀ c ∈ out.calls, c = Call.Resolve r.destination := by
  unfold paymentOperation at h
  dsimp only at h
  repeat' split at h
  all_goals simp_all
  all_goals (subst h; simp)

/-- Choosing the operation calls the resolver and at most loads the destination account. -/
theorem paymentOperation_ok_calls (rh : RequestHandler) (r : PaymentRequest) (p : Prepared)
    (h : paymentOperation rh r = .ok p) :
    ∀ c ∈ p.calls, c = Call.Resolve r.destination ∨
      c = Call.LoadAccount p.destinationObject.AccountId := by
  unfold paymentOperation at h
  dsimp only at h
  repeat' split at h
  all_goals simp_all
  all_goals (subst h; simp)

/-- A builder error is answered with status 400 or 500. -/
theorem builderErrorResponse_status (rh : RequestHandler) (e : String) :
    (builderErrorResponse rh e).statusCode = some 400 ∨
      (builderErrorResponse rh e).statusCode = some 500 := by
  unfold builderErrorResponse
  split
  · left; rfl
  · split
    · left; rfl
    · right; rfl

/-- A builder error ends the handler: nothing is submitted and the answer is the one chosen
from the error's message. -/
theorem Payment_of_builder_error (rh : RequestHandler) (r : PaymentRequest)
    (m : List TransactionMutator) (e : String)
    (hcall : Call.Transaction m ∈ (Payment rh r).calls)
    (herr : (rh.Transaction m).Err = some e) :
    (∀ b, Call.SubmitTransaction b ∉ (Payment rh r).calls) ∧
      (Payment rh r).response = builderErrorResponse rh e := by
  unfold Payment at hcall ⊢
  cases hop : paymentOperation rh r with
  | error out =>
    rw [hop] at hcall
    have := paymentOperation_error_calls rh r out hop _ hcall
    cases this
  | ok p =>
    have hp := paymentOperation_ok_calls rh r p hop
    have hnot : ∀ m, Call.Transaction m ∉ p.calls := fun m hm => by
      rcases hp _ hm with h | h <;> cases h
    have hnot2 : ∀ b, Call.SubmitTransaction b ∉ p.calls := fun m hm => by
      rcases hp _ hm with h | h <;> cases h
    rw [hop] at hcall
    simp only at hcall ⊢
    cases hmemo : paymentMemo rh r p.destinationObject with
    | error resp =>
      rw [hmemo] at hcall
      exact absurd hcall (hnot m)
    | ok mm =>
      rw [hmemo] at hcall
      simp only at hcall ⊢
      unfold paymentSubmit at hcall ⊢
      dsimp only at hcall ⊢
      repeat' split at hcall
      all_goals simp_all

/-- Two lists with equal last elements appended. -/
theorem append_singleton_eq {α : Type} {l l' : List α} {a b : α}
    (h : l ++ [a] = l' ++ [b]) : l = l' ∧ a = b := by
  have := List.append_inj' h rfl
  simpa using this

/-- When the last call of the submission part is `SubmitTransaction`, the answer follows
from the ledger client's answer to that call. -/
theorem paymentSubmit_submitted (rh : RequestHandler) (r : PaymentRequest) (p : Prepared)
    (mm : Option TransactionMutator) (hist : List Call) (txeB64 : String)
    (hcalls : (paymentSubmit rh r p mm).calls = hist ++ [Call.SubmitTransaction txeB64]) :
    (rh.SubmitTransaction hist txeB64 = none →
      (paymentSubmit rh r p mm).response = .errorServerError) ∧
    (∀ submitResponse, rh.SubmitTransaction hist txeB64 = some submitResponse →
      (rh.MarshalIndent submitResponse = none →
        (paymentSubmit rh r p mm).response = .errorServerError) ∧
      (∀ body, rh.MarshalIndent submitResponse = some body →
        (submitResponse.Ledger = none →
          (paymentSubmit rh r p mm).response = .errorBadRequest body) ∧
        (submitResponse.Ledger ≠ none →
          (paymentSubmit rh r p mm).response = .Write body))) := by
  unfold paymentSubmit at hcalls ⊢
  dsimp only at hcalls ⊢
  repeat' split at hcalls
  all_goals (try dsimp only at hcalls)
  all_goals (have hh := append_singleton_eq hcalls; try simp at hh)
  all_goals (obtain ⟨h1, h2⟩ := hh; subst h1; subst h2)
  all_goals simp_all

/-- The memo switch accepts the empty type, the type `id` with a value that parses, and the
type `text`; it refuses everything else as a bad request. -/
theorem memoMutator_cases (rh : RequestHandler) (t m : String) :
    ((t = "" ∨ (t = "id" ∧ ParseUint m ≠ none) ∨ t = "text") ∧
      ∃ mm, memoMutator rh t m = .ok mm) ∨
    (¬ (t = "" ∨ (t = "id" ∧ ParseUint m ≠ none) ∨ t = "text") ∧
      ∃ s, memoMutator rh t m = .error (.errorBadRequest s)) := by
  unfold memoMutator
  by_cases h1 : t = ""
  · left; simp [h1]
  · by_cases h2 : t = "id"
    · cases h3 : ParseUint m with
      | none => right; simp [h2, h3]
      | some n => left; simp [h2, h3]
    · by_cases h3 : t = "text"
      · left; simp [h3]
      · right; simp [h1, h2, h3]

/-- The model of `onPayment` gives the outcomes the repository's test expects: the three
settled statuses that need no memo, and an error without record for a hook answering 503. -/
theorem onPayment_test_scenarios :
    (onPayment sampleListener { sampleOperation with Type_ := "create_account" }).persisted =
      [⟨"1", 1467331200, "2", "Not a payment operation"⟩] ∧
    (onPayment sampleListener { sampleOperation with
        To := "GDNXBMIJLLLXZYKZBHXJ45WQ4AJQBRVT776YKGQTDBHTSPMNAFO3OZOS" }).persisted =
      [⟨"1", 1467331200, "2", "Operation sent not received"⟩] ∧
    (onPayment sampleListener { sampleOperation with
        AssetIssuer := "GC4WWLMUGZJMRVJM7JUVVZBY3LJ5HL4RKIPADEGKEMLAAJEDRONUGYG7" }).persisted =
      [⟨"1", 1467331200, "2", "Asset not allowed"⟩] ∧
    (onPayment sampleListener { sampleOperation with AssetCode := "GBP" }).persisted =
      [⟨"1", 1467331200, "2", "Asset not allowed"⟩] ∧
    (onPayment sampleListener sampleOperation).persisted = [] ∧
    (onPayment acceptingListener sampleOperation).persisted =
      [⟨"1", 1467331200, "2", "Success"⟩] := by
  decide

/-- The byte length of a list of characters is additive. -/
theorem utf8ByteSize_go_append (a b : List Char) :
    String.utf8ByteSize.go (a ++ b) = String.utf8ByteSize.go a + String.utf8ByteSize.go b := by
  induction a with
  | nil => simp [String.utf8ByteSize.go]
  | cons c cs ih => simp [String.utf8ByteSize.go, ih]; omega

/-- A non-empty list of characters has a positive byte length. -/
theorem utf8ByteSize_go_pos (a : List Char) (h : a ≠ []) : 0 < String.utf8ByteSize.go a := by
  cases a with
  | nil => exact absurd rfl h
  | cons c cs =>
    have := Char.utf8Size_pos c
    simp only [String.utf8ByteSize.go]
    omega

/-- For a path ending in a slash, being longer than one byte and being longer than one
character are the same. -/
theorem one_lt_utf8ByteSize_iff (p : String) (h : p.data.getLast? = some '/') :
    1 < p.utf8ByteSize ↔ 1 < p.length := by
  obtain ⟨ys, hys⟩ := List.getLast?_eq_some_iff.mp h
  have hsize : p.utf8ByteSize = String.utf8ByteSize.go ys + 1 := by
    cases p with
    | mk data =>
      simp only at hys
      subst hys
      simp only [String.utf8ByteSize, utf8ByteSize_go_append]
      rfl
  have hlen : p.length = ys.length + 1 := by
    simp [String.length, hys]
  rw [hsize, hlen]
  cases ys with
  | nil => simp [String.utf8ByteSize.go]
  | cons c cs =>
    have := utf8ByteSize_go_pos (c :: cs) (by simp)
    simp only [List.length_cons]
    omega

/-- The query that `Validate` writes for a mysql database has the piece `parseTime=true`. -/
theorem parseTime_mem_components (v : Values) :
    "parseTime=true" ∈ (v.Set "parseTime" "true").components := by
  unfold Values.components
  rw [List.mem_flatMap]
  refine ⟨("parseTime", ["true"]), ?_, ?_⟩
  · rw [(List.perm_insertionSort _ _).mem_iff]
    simp [Values.Set]
  · simp only [List.map_cons, List.map_nil, List.mem_singleton]
    decide

/-- C1: for a request that passes validation (the operation is chosen, the memo is accepted)
and whose source account loads with a sequence string that parses as the unsigned 64-bit
value `s`, the builder is called with exactly these mutators, in this order: source account,
sequence `s + 1` computed in 64 bits, network passphrase, the operation, and then the memo
if and only if there is one. -/
theorem Payment_transaction_mutators (rh : RequestHandler) (r : PaymentRequest) (p : Prepared)
    (mm : Option TransactionMutator) (acc : AccountResponse) (s : Nat)
    (hop : paymentOperation rh r = .ok p)
    (hmemo : paymentMemo rh r p.destinationObject = .ok mm)
    (hload : rh.LoadAccount p.calls p.sourceAddress = some acc)
    (hseq : ParseUint acc.SequenceNumber = some s) :
    s < 2 ^ 64 ∧
    ∀ m, Call.Transaction m ∈ (Payment rh r).calls ↔
      m = [TransactionMutator.SourceAccount r.source,
            TransactionMutator.Sequence ((s + 1) % 2 ^ 64),
            TransactionMutator.Network rh.NetworkPassphrase,
            p.operationBuilder] ++ mm.toList := by
  refine ⟨ParseUint_lt _ _ hseq, fun m => ?_⟩
  have hp := paymentOperation_ok_calls rh r p hop
  have hnot : Call.Transaction m ∉ p.calls := fun hm => by
    rcases hp _ hm with h | h <;> cases h
  have hmuts : transactionMutators rh r.source s p.operationBuilder mm =
      [TransactionMutator.SourceAccount r.source,
            TransactionMutator.Sequence ((s + 1) % 2 ^ 64),
            TransactionMutator.Network rh.NetworkPassphrase,
            p.operationBuilder] ++ mm.toList := by
    cases mm <;> rfl
  rw [← hmuts]
  simp only [Payment, hop, hmemo, paymentSubmit, hload, hseq]
  repeat' split
  all_goals simp [hnot, eq_comm]

/-- Witness of C1: the sample request is built with sequence 42 and the text memo last. -/
theorem Payment_transaction_mutators_witness :
    paymentOperation sampleHandler sampleRequest = .ok samplePrepared ∧
    paymentMemo sampleHandler sampleRequest samplePrepared.destinationObject =
      .ok (some (.MemoText "testing")) ∧
    sampleHandler.LoadAccount samplePrepared.calls samplePrepared.sourceAddress =
      some ⟨"41"⟩ ∧
    ParseUint "41" = some 41 ∧
    ∀ m, Call.Transaction m ∈ (Payment sampleHandler sampleRequest).calls ↔
      m = [TransactionMutator.SourceAccount sampleRequest.source,
            TransactionMutator.Sequence 42,
            TransactionMutator.Network "Test SDF Network ; September 2015",
            samplePrepared.operationBuilder, TransactionMutator.MemoText "testing"] :=
  ⟨by decide, by decide, by decide, by decide,
    (Payment_transaction_mutators sampleHandler sampleRequest samplePrepared
      (some (.MemoText "testing")) ⟨"41"⟩ 41 (by decide) (by decide) (by decide)
      (by decide)).2⟩

/-- C2: whenever the builder is called and reports an error, `SubmitTransaction` is not
called and the handler answers with an error response, of status 400 or 500. -/
theorem Payment_builder_error_not_submitted (rh : RequestHandler) (r : PaymentRequest)
    (m : List TransactionMutator) (e : String)
    (hcall : Call.Transaction m ∈ (Payment rh r).calls)
    (herr : (rh.Transaction m).Err = some e) :
    (∀ b, Call.SubmitTransaction b ∉ (Payment rh r).calls) ∧
    ((Payment rh r).response.statusCode = some 400 ∨
      (Payment rh r).response.statusCode = some 500) := by
  have key := Payment_of_builder_error rh r m e hcall herr
  exact ⟨key.1, key.2 ▸ builderErrorResponse_status rh e⟩

/-- Witness of C2: a text memo of 29 bytes is refused by the builder and nothing is
submitted. -/
theorem Payment_builder_error_not_submitted_witness :
    Call.Transaction longMemoMutators ∈ (Payment sampleHandler longMemoRequest).calls ∧
    (sampleHandler.Transaction longMemoMutators).Err = some "Memo too long; over 28 bytes" ∧
    (∀ b, Call.SubmitTransaction b ∉ (Payment sampleHandler longMemoRequest).calls) :=
  ⟨by decide, by decide,
    (Payment_builder_error_not_submitted sampleHandler longMemoRequest longMemoMutators
      "Memo too long; over 28 bytes" (by decide) (by decide)).1⟩

/-- C3: `onPayment` decides the recorded status by first match, for every listener and every
operation: a type other than payment gives "Not a payment operation"; otherwise a destination
other than the receiving account gives "Operation sent not received"; otherwise an asset
outside the allow-list gives "Asset not allowed"; otherwise, the memo loaded, an absent memo
gives "Transaction does not have memo"; otherwise a 2xx answer of the receive hook gives
"Success". An operation sent elsewhere with a disallowed asset is recorded as
"Operation sent not received". -/
theorem onPayment_status_first_match (pl : PaymentListener) (operation : PaymentResponse) :
    (operation.Type_ ≠ "payment" →
      (onPayment pl operation).persisted.map ReceivedPayment.Status =
        ["Not a payment operation"]) ∧
    (operation.Type_ = "payment" → operation.To ≠ pl.ReceivingAccountId →
      (onPayment pl operation).persisted.map ReceivedPayment.Status =
        ["Operation sent not received"]) ∧
    (operation.Type_ = "payment" → operation.To = pl.ReceivingAccountId →
      assetNotAllowed pl operation = true →
      (onPayment pl operation).persisted.map ReceivedPayment.Status =
        ["Asset not allowed"]) ∧
    (operation.Type_ = "payment" → operation.To = pl.ReceivingAccountId →
      assetNotAllowed pl operation = false → pl.LoadMemo operation = some none →
      (onPayment pl operation).persisted.map ReceivedPayment.Status =
        ["Transaction does not have memo"]) ∧
    (operation.Type_ = "payment" → operation.To = pl.ReceivingAccountId →
      assetNotAllowed pl operation = false →
      ∀ memo status, pl.LoadMemo operation = some (some memo) →
      pl.PostForm pl.ReceiveHook
        [("id", operation.Id), ("from", operation.From), ("amount", operation.Amount),
          ("asset_code", operation.AssetCode), ("memo_type", memo.Type_),
          ("memo", memo.Value)] = some status →
      200 ≤ status → status < 300 →
      (onPayment pl operation).persisted.map ReceivedPayment.Status = ["Success"]) ∧
    (operation.Type_ = "payment" → operation.To ≠ pl.ReceivingAccountId →
      assetNotAllowed pl operation = true →
      (onPayment pl operation).persisted.map ReceivedPayment.Status =
        ["Operation sent not received"] ∧
      "Asset not allowed" ∉ (onPayment pl operation).persisted.map ReceivedPayment.Status) := by
  refine ⟨?_, ?_, ?_, ?_, ?_, ?_⟩
  · intro h1
    simp [onPayment, settle, h1]
  · intro h1 h2
    simp [onPayment, settle, h1, h2]
  · intro h1 h2 h3
    simp [onPayment, settle, h1, h2, h3]
  · intro h1 h2 h3 h4
    simp [onPayment, settle, h1, h2, h3, h4]
  · intro h1 h2 h3 memo status h4 h5 h6 h7
    simp [onPayment, settle, h1, h2, h3, h4, h5, h6, h7]
  · intro h1 h2 _
    simp [onPayment, settle, h1, h2]

/-- C4: for a payment to the receiving account with an allowed asset, when loading the memo
fails, or when the memo is present and the receive hook answers outside 200 to 299 or cannot
be reached, `onPayment` returns an error and `Persist` is not called. -/
theorem onPayment_transient_failure_not_persisted (pl : PaymentListener)
    (operation : PaymentResponse)
    (htype : operation.Type_ = "payment") (hto : operation.To = pl.ReceivingAccountId)
    (hasset : assetNotAllowed pl operation = false)
    (hfail : pl.LoadMemo operation = none ∨
      ∃ memo, pl.LoadMemo operation = some (some memo) ∧
        (pl.PostForm pl.ReceiveHook
          [("id", operation.Id), ("from", operation.From), ("amount", operation.Amount),
            ("asset_code", operation.AssetCode), ("memo_type", memo.Type_),
            ("memo", memo.Value)] = none ∨
         ∃ status, pl.PostForm pl.ReceiveHook
          [("id", operation.Id), ("from", operation.From), ("amount", operation.Amount),
            ("asset_code", operation.AssetCode), ("memo_type", memo.Type_),
            ("memo", memo.Value)] = some status ∧ ¬ (200 ≤ status ∧ status < 300))) :
    (onPayment pl operation).err ≠ none ∧ (onPayment pl operation).persisted = [] := by
  rcases hfail with h | ⟨memo, h, h2 | ⟨status, h2, h3⟩⟩
  · simp [onPayment, htype, hto, hasset, h]
  · simp [onPayment, htype, hto, hasset, h, h2]
  · simp only [onPayment, htype, hto, hasset, h, h2]
    simp [h3]

/-- Witness of C4: the receive hook answers 503, `onPayment` fails and persists nothing. -/
theorem onPayment_transient_failure_not_persisted_witness :
    (onPayment sampleListener sampleOperation).err ≠ none ∧
    (onPayment sampleListener sampleOperation).persisted = [] :=
  onPayment_transient_failure_not_persisted sampleListener sampleOperation (by decide)
    (by decide) (by decide)
    (Or.inr ⟨⟨"text", "testing"⟩, by decide, Or.inr ⟨503, by decide, by decide⟩⟩)

/-- C5: when `onPayment` returns success, `Persist` was called exactly once, with a record
carrying the operation's id, the clock's value, the operation's paging token and one of the
five outcome strings. -/
theorem onPayment_success_persists_once (pl : PaymentListener) (operation : PaymentResponse)
    (hok : (onPayment pl operation).err = none) :
    ∃ status, (onPayment pl operation).persisted =
        [⟨operation.Id, pl.now, operation.PagingToken, status⟩] ∧
      status ∈ ["Not a payment operation", "Operation sent not received", "Asset not allowed",
        "Transaction does not have memo", "Success"] := by
  unfold onPayment at hok ⊢
  dsimp only at hok ⊢
  repeat' split at hok
  all_goals simp_all [settle]

/-- Witness of C5: the receive hook answers 200 and the one record has status "Success". -/
theorem onPayment_success_persists_once_witness :
    (onPayment acceptingListener sampleOperation).err = none ∧
    ∃ status, (onPayment acceptingListener sampleOperation).persisted =
        [⟨"1", 1467331200, "2", status⟩] ∧
      status ∈ ["Not a payment operation", "Operation sent not received", "Asset not allowed",
        "Transaction does not have memo", "Success"] :=
  ⟨by decide, onPayment_success_persists_once acceptingListener sampleOperation (by decide)⟩

/-- Counterexample to C7: a ledger rejection, returned by `SubmitTransaction` as a response
without ledger number, is answered with status 400 and the encoded ledger response as body. -/
theorem Payment_ledger_rejection_bad_request :
    (Payment rejectingHandler sampleRequest).calls =
      sampleHistory ++ [Call.SubmitTransaction sampleEnvelope] ∧
    rejectingHandler.SubmitTransaction sampleHistory sampleEnvelope =
      some ⟨none, "tx_insufficient_balance"⟩ ∧
    (Payment rejectingHandler sampleRequest).response =
      .errorBadRequest "tx_insufficient_balance" ∧
    (Payment rejectingHandler sampleRequest).response.statusCode = some 400 := by
  decide

/-- C7, amended: when the handler's last call is `SubmitTransaction`, an error returned by
that call is answered with a server error (status 500), and a response carrying no ledger
number is answered with a bad request (status 400) whose body is the encoded ledger
response, or with a server error when the encoding fails. -/
theorem Payment_submission_failure (rh : RequestHandler) (r : PaymentRequest)
    (hist : List Call) (txeB64 : String)
    (hcalls : (Payment rh r).calls = hist ++ [Call.SubmitTransaction txeB64]) :
    (rh.SubmitTransaction hist txeB64 = none →
      (Payment rh r).response = .errorServerError ∧
      (Payment rh r).response.statusCode = some 500) ∧
    (∀ submitResponse, rh.SubmitTransaction hist txeB64 = some submitResponse →
      submitResponse.Ledger = none →
      (rh.MarshalIndent submitResponse = none →
        (Payment rh r).response = .errorServerError ∧
        (Payment rh r).response.statusCode = some 500) ∧
      (∀ body, rh.MarshalIndent submitResponse = some body →
        (Payment rh r).response = .errorBadRequest body ∧
        (Payment rh r).response.statusCode = some 400)) := by
  have hmem : Call.SubmitTransaction txeB64 ∈ (Payment rh r).calls := by
    rw [hcalls]; simp
  unfold Payment at hcalls hmem ⊢
  cases hop : paymentOperation rh r with
  | error out =>
    rw [hop] at hmem
    have := paymentOperation_error_calls rh r out hop _ hmem
    cases this
  | ok p =>
    have hp := paymentOperation_ok_calls rh r p hop
    rw [hop] at hmem hcalls
    simp only at hmem hcalls ⊢
    cases hmemo : paymentMemo rh r p.destinationObject with
    | error resp =>
      rw [hmemo] at hmem
      rcases hp _ hmem with h | h <;> cases h
    | ok mm =>
      rw [hmemo] at hcalls
      simp only at hcalls ⊢
      have key := paymentSubmit_submitted rh r p mm hist txeB64 hcalls
      refine ⟨fun h => ?_, fun submitResponse h hl => ⟨fun hm => ?_, fun body hm => ?_⟩⟩
      · rw [key.1 h]; exact ⟨rfl, rfl⟩
      · rw [((key.2 submitResponse h).1 hm)]; exact ⟨rfl, rfl⟩
      · rw [(((key.2 submitResponse h).2 body hm).1 hl)]; exact ⟨rfl, rfl⟩

/-- Witness of C7, amended: the rejecting ledger's answer comes back with status 400. -/
theorem Payment_submission_failure_witness :
    (Payment rejectingHandler sampleRequest).calls =
      sampleHistory ++ [Call.SubmitTransaction sampleEnvelope] ∧
    (Payment rejectingHandler sampleRequest).response.statusCode = some 400 :=
  ⟨by decide,
    ((((Payment_submission_failure rejectingHandler sampleRequest sampleHistory sampleEnvelope
      (by decide)).2 ⟨none, "tx_insufficient_balance"⟩ (by decide) (by decide)).2
      "tx_insufficient_balance" (by decide))).2⟩

/-- Counterexample to C8: the builder's error for a text memo of 29 bytes is answered with a
server error, status 500. -/
theorem Payment_invalid_memo_server_error :
    Call.Transaction longMemoMutators ∈ (Payment sampleHandler longMemoRequest).calls ∧
    (sampleHandler.Transaction longMemoMutators).Err = some "Memo too long; over 28 bytes" ∧
    (Payment sampleHandler longMemoRequest).response = .errorServerError ∧
    (Payment sampleHandler longMemoRequest).response.statusCode = some 500 := by
  decide

/-- C8, amended: when the builder is called and reports an error, the message
"Asset code length is invalid" is answered with a bad request of code `asset_code_invalid`,
another message containing "cannot parse amount" with a bad request of code
`invalid_amount`, and every other message with a server error (status 500). -/
theorem Payment_builder_error_response (rh : RequestHandler) (r : PaymentRequest)
    (m : List TransactionMutator) (e : String)
    (hcall : Call.Transaction m ∈ (Payment rh r).calls)
    (herr : (rh.Transaction m).Err = some e) :
    (e = "Asset code length is invalid" →
      (Payment rh r).response = .errorBadRequest
        (rh.errorResponseString "asset_code_invalid" "asset_code param is invalid") ∧
      (Payment rh r).response.statusCode = some 400) ∧
    (e ≠ "Asset code length is invalid" → stringsContains e "cannot parse amount" = true →
      (Payment rh r).response = .errorBadRequest
        (rh.errorResponseString "invalid_amount" "amount is invalid") ∧
      (Payment rh r).response.statusCode = some 400) ∧
    (e ≠ "Asset code length is invalid" → stringsContains e "cannot parse amount" = false →
      (Payment rh r).response = .errorServerError ∧
      (Payment rh r).response.statusCode = some 500) := by
  have key := (Payment_of_builder_error rh r m e hcall herr).2
  rw [key]
  refine ⟨fun h => ?_, fun h1 h2 => ?_, fun h1 h2 => ?_⟩
  · simp [builderErrorResponse, h, Response.statusCode]
  · simp [builderErrorResponse, h1, h2, Response.statusCode]
  · simp [builderErrorResponse, h1, h2, Response.statusCode]

/-- Witness of C8, amended: the memo error of the sample builder falls in the last case. -/
theorem Payment_builder_error_response_witness :
    Call.Transaction longMemoMutators ∈ (Payment sampleHandler longMemoRequest).calls ∧
    (sampleHandler.Transaction longMemoMutators).Err = some "Memo too long; over 28 bytes" ∧
    (Payment sampleHandler longMemoRequest).response.statusCode = some 500 :=
  ⟨by decide, by decide,
    ((Payment_builder_error_response sampleHandler longMemoRequest longMemoMutators
      "Memo too long; over 28 bytes" (by decide) (by decide)).2.2 (by decide) (by decide)).2⟩

/-- Counterexample to C9: `InitAccount` fails for the authorizing account only, and `NewApp`
returns the error without constructing an application. -/
theorem NewApp_authorizing_failure_no_app :
    sampleConstructors.InitAccount []
      "SDRTXYMVIAJSCXIJEUTKJ2GJ5XJSXMIXUDYIGBCGM4WSHAQDOBAHXWIL" =
      some "account does not exist" ∧
    sampleConstructors.InitAccount ["SDRTXYMVIAJSCXIJEUTKJ2GJ5XJSXMIXUDYIGBCGM4WSHAQDOBAHXWIL"]
      "SC34WILLHVADXMP6ACPMIRA6TRAWJMVCLPFNW7S6MUMXJVLAZUC4EWHP" = none ∧
    NewApp sampleConstructors sampleConfig = .err "account does not exist" := by
  decide

/-- C9, amended: when `NewApp` gets as far as initialising the managed accounts and
`InitAccount` fails for the authorizing account, or succeeds for it and fails for the issuing
account, `NewApp` returns that error and no application; and `Serve`, for every application,
registers `/payment`, and registers `/authorize` and `/send` exactly when the respective
seed is configured. -/
theorem NewApp_InitAccount_failure (d : Constructors) (config : Config) (accounts : Accounts)
    (e : String)
    (hem : d.NewEntityManager config.Database.Type_ config.Database.Url = none)
    (hrepo : d.NewRepository config.Database.Type_ config.Database.Url = none)
    (hhorizon : config.Horizon ≠ none)
    (haccounts : config.Accounts = some accounts)
    (hfail : (∃ seed, accounts.AuthorizingSeed = some seed ∧ d.InitAccount [] seed = some e) ∨
      ((∀ seed, accounts.AuthorizingSeed = some seed → d.InitAccount [] seed = none) ∧
        ∃ seed, accounts.IssuingSeed = some seed ∧
          d.InitAccount accounts.AuthorizingSeed.toList seed = some e)) :
    NewApp d config = .err e ∧
    ∀ a served, Serve a = some served →
      "/payment" ∈ served.routes ∧
      ("/authorize" ∈ served.routes ↔
        ∃ acc, a.config.Accounts = some acc ∧ acc.AuthorizingSeed ≠ none) ∧
      ("/send" ∈ served.routes ↔
        ∃ acc, a.config.Accounts = some acc ∧ acc.IssuingSeed ≠ none) := by
  constructor
  · obtain ⟨h, hh⟩ := Option.ne_none_iff_exists'.mp hhorizon
    unfold NewApp
    simp only [hem, hrepo, hh]
    by_cases hnp : config.NetworkPassphrase = "" <;>
      simp only [hnp, if_true, if_false, haccounts]
    all_goals
      rcases hfail with ⟨seed, h1, h2⟩ | ⟨h1, seed, h2, h3⟩
      · simp [h1, h2]
      · cases hs : accounts.AuthorizingSeed with
        | none =>
          rw [hs] at h3
          simp only [Option.toList] at h3
          simp [h2, h3]
        | some s =>
          rw [hs] at h3
          simp only [Option.toList] at h3
          simp [h2, h3, h1 s hs]
  · intro a served hs
    unfold Serve at hs
    split at hs
    · simp at hs
    · split at hs
      · simp at hs
      · rename_i port _ acc hacc
        simp only [Option.some.injEq] at hs
        subst hs
        simp only [hacc]
        refine ⟨by simp, ?_, ?_⟩
        · by_cases h1 : acc.AuthorizingSeed = none <;> by_cases h2 : acc.IssuingSeed = none <;>
            simp [h1, h2]
        · by_cases h1 : acc.AuthorizingSeed = none <;> by_cases h2 : acc.IssuingSeed = none <;>
            simp [h1, h2]

/-- Witness of C9, amended: the sample deployment, whose authorizing account does not
exist. -/
theorem NewApp_InitAccount_failure_witness :
    NewApp sampleConstructors sampleConfig = .err "account does not exist" :=
  (NewApp_InitAccount_failure sampleConstructors sampleConfig
    { AuthorizingSeed := some "SDRTXYMVIAJSCXIJEUTKJ2GJ5XJSXMIXUDYIGBCGM4WSHAQDOBAHXWIL"
      IssuingSeed := some "SC34WILLHVADXMP6ACPMIRA6TRAWJMVCLPFNW7S6MUMXJVLAZUC4EWHP"
      ReceivingAccountId := none }
    "account does not exist" (by decide) (by decide) (by decide) (by decide)
    (Or.inl ⟨"SDRTXYMVIAJSCXIJEUTKJ2GJ5XJSXMIXUDYIGBCGM4WSHAQDOBAHXWIL", by decide,
      by decide⟩)).1

/-- The memo validation of `Payment` wherever the effective memo has a value. Once the
operation is chosen, the memo is accepted only if `memo_type` and `memo` of the request are
both empty or both non-empty and the effective memo type (that of the resolved destination
when it carries a memo, that of the request otherwise) is empty, `id` with a value that
parses as an unsigned 64-bit integer, or `text`. When one of the two request values is
missing, or the effective memo has a value and is anything else, the handler answers with a
bad request (status 400) and makes no call beyond those of choosing the operation. A
resolution with a memo type and a nil memo value is not covered here. -/
theorem Payment_memo_validation (rh : RequestHandler) (r : PaymentRequest) (p : Prepared)
    (hop : paymentOperation rh r = .ok p) :
    (∀ mm, paymentMemo rh r p.destinationObject = .ok mm →
      ((r.memo_type = "" ∧ r.memo = "") ∨ (r.memo_type ≠ "" ∧ r.memo ≠ "")) ∧
      ∃ t m, ((p.destinationObject.MemoType = none ∧ t = r.memo_type ∧ m = r.memo) ∨
          (p.destinationObject.MemoType = some t ∧ p.destinationObject.Memo = some m)) ∧
        (t = "" ∨ (t = "id" ∧ ParseUint m ≠ none) ∨ t = "text")) ∧
    ((¬ ((r.memo_type = "" ∧ r.memo = "") ∨ (r.memo_type ≠ "" ∧ r.memo ≠ "")) ∨
      ∃ t m, ((p.destinationObject.MemoType = none ∧ t = r.memo_type ∧ m = r.memo) ∨
          (p.destinationObject.MemoType = some t ∧ p.destinationObject.Memo = some m)) ∧
        ¬ (t = "" ∨ (t = "id" ∧ ParseUint m ≠ none) ∨ t = "text")) →
      (Payment rh r).response.statusCode = some 400 ∧
      (Payment rh r).calls = p.calls ∧
      (∀ c ∈ (Payment rh r).calls, c = Call.Resolve r.destination ∨
        c = Call.LoadAccount p.destinationObject.AccountId) ∧
      (∀ m, Call.Transaction m ∉ (Payment rh r).calls) ∧
      (∀ b, Call.SubmitTransaction b ∉ (Payment rh r).calls)) := by
  have hp := paymentOperation_ok_calls rh r p hop
  constructor
  · intro mm hmm
    unfold paymentMemo at hmm
    split at hmm
    · cases hmm
    · rename_i hboth
      refine ⟨not_not.mp hboth, ?_⟩
      split at hmm
      · rename_i hnone
        refine ⟨r.memo_type, r.memo, Or.inl ⟨hnone, rfl, rfl⟩, ?_⟩
        rcases memoMutator_cases rh r.memo_type r.memo with ⟨h, _⟩ | ⟨_, s, hs⟩
        · exact h
        · rw [hs] at hmm; cases hmm
      · rename_i t ht
        split at hmm
        · cases hmm
        · split at hmm
          · cases hmm
          · rename_i m hm
            refine ⟨t, m, Or.inr ⟨ht, hm⟩, ?_⟩
            rcases memoMutator_cases rh t m with ⟨h, _⟩ | ⟨_, s, hs⟩
            · exact h
            · rw [hs] at hmm; cases hmm
  · intro hbad
    have hrej : ∃ s, paymentMemo rh r p.destinationObject = .error (.errorBadRequest s) := by
      unfold paymentMemo
      by_cases hboth : (r.memo_type = "" ∧ r.memo = "") ∨ (r.memo_type ≠ "" ∧ r.memo ≠ "")
      · rw [if_neg (not_not.mpr hboth)]
        rcases hbad with hbad | ⟨t, m, heff, hno⟩
        · exact absurd hboth hbad
        · rcases memoMutator_cases rh t m with ⟨h, _⟩ | ⟨_, s, hs⟩
          · exact absurd h hno
          · rcases heff with ⟨hnone, ht, hm⟩ | ⟨ht, hm⟩
            · subst ht; subst hm
              exact ⟨s, by simp only [hnone, hs]⟩
            · by_cases hreq : r.memo_type = ""
              · exact ⟨s, by simp [ht, hm, hreq, hs]⟩
              · exact ⟨_, by simp only [ht, hreq, ne_eq, not_false_eq_true, if_true]; rfl⟩
      · exact ⟨_, by rw [if_pos hboth]⟩
    obtain ⟨s, hs⟩ := hrej
    have hpay : Payment rh r = ⟨p.calls, .errorBadRequest s⟩ := by
      simp [Payment, hop, hs]
    rw [hpay]
    refine ⟨rfl, rfl, hp, fun m hm => ?_, fun b hb => ?_⟩
    · rcases hp _ hm with h | h <;> cases h
    · rcases hp _ hb with h | h <;> cases h

/-- The memo validation at the sample request with a memo of type `hash`: it is refused
before the source account is loaded. -/
theorem Payment_memo_validation_witness :
    paymentOperation sampleHandler hashMemoRequest = .ok samplePrepared ∧
    (Payment sampleHandler hashMemoRequest).response.statusCode = some 400 ∧
    (Payment sampleHandler hashMemoRequest).calls = samplePrepared.calls :=
  ⟨by decide,
    ((Payment_memo_validation sampleHandler hashMemoRequest samplePrepared (by decide)).2
      (Or.inr ⟨"hash", "testing", Or.inl ⟨by decide, by decide, by decide⟩, by decide⟩)).1,
    ((Payment_memo_validation sampleHandler hashMemoRequest samplePrepared (by decide)).2
      (Or.inr ⟨"hash", "testing", Or.inl ⟨by decide, by decide, by decide⟩, by decide⟩)).2.1⟩

/-- C11: for a request whose source parses and whose destination resolves to an account id
that parses, the operation is chosen from `asset_code` and `asset_issuer`: both non-empty
with an issuer that parses gives a payment of that credit asset; both empty gives a native
amount, in a payment when loading the destination account succeeds and in a create-account
when it fails; exactly one of the two non-empty is answered with a bad request of code
`asset_missing_param`, and nothing is loaded, built or submitted. -/
theorem Payment_operation_choice (rh : RequestHandler) (r : PaymentRequest)
    (sourceAddress destinationAddress : String) (destinationObject : ResolvedDestination)
    (hsource : rh.keypairParse r.source = some sourceAddress)
    (hresolve : rh.Resolve r.destination = some destinationObject)
    (hdestination : rh.keypairParse destinationObject.AccountId = some destinationAddress) :
    (r.asset_code ≠ "" → r.asset_issuer ≠ "" →
      ∀ issuerAddress, rh.keypairParse r.asset_issuer = some issuerAddress →
      paymentOperation rh r = .ok ⟨[Call.Resolve r.destination], sourceAddress,
        destinationObject,
        .Payment [.Destination destinationObject.AccountId,
          .CreditAmount r.asset_code issuerAddress r.amount]⟩) ∧
    (r.asset_code = "" → r.asset_issuer = "" →
      (∀ account, rh.LoadAccount [Call.Resolve r.destination] destinationObject.AccountId =
          some account →
        paymentOperation rh r = .ok ⟨[Call.Resolve r.destination,
            Call.LoadAccount destinationObject.AccountId], sourceAddress, destinationObject,
          .Payment [.Destination destinationObject.AccountId, .NativeAmount r.amount]⟩) ∧
      (rh.LoadAccount [Call.Resolve r.destination] destinationObject.AccountId = none →
        paymentOperation rh r = .ok ⟨[Call.Resolve r.destination,
            Call.LoadAccount destinationObject.AccountId], sourceAddress, destinationObject,
          .CreateAccount [.Destination destinationObject.AccountId,
            .NativeAmount r.amount]⟩)) ∧
    (((r.asset_code ≠ "" ∧ r.asset_issuer = "") ∨ (r.asset_code = "" ∧ r.asset_issuer ≠ "")) →
      Payment rh r = ⟨[Call.Resolve r.destination], .errorBadRequest
        (rh.errorResponseString "asset_missing_param"
          "When passing asser both params: `asset_code`, `asset_issuer` are required")⟩ ∧
      (Payment rh r).response.statusCode = some 400 ∧
      (∀ b, Call.SubmitTransaction b ∉ (Payment rh r).calls)) := by
  refine ⟨fun h1 h2 issuerAddress hi => ?_, fun h1 h2 => ⟨fun account ha => ?_, fun ha => ?_⟩,
    fun h => ?_⟩
  · simp [paymentOperation, hsource, hresolve, hdestination, h1, h2, hi]
  · simp [paymentOperation, hsource, hresolve, hdestination, h1, h2, ha]
  · simp [paymentOperation, hsource, hresolve, hdestination, h1, h2, ha]
  · have hpay : Payment rh r = ⟨[Call.Resolve r.destination], .errorBadRequest
        (rh.errorResponseString "asset_missing_param"
          "When passing asser both params: `asset_code`, `asset_issuer` are required")⟩ := by
      rcases h with ⟨h1, h2⟩ | ⟨h1, h2⟩ <;>
        simp [Payment, paymentOperation, hsource, hresolve, hdestination, h1, h2]
    rw [hpay]
    exact ⟨rfl, rfl, fun b hb => by simp at hb⟩

/-- Witness of C11: the sample request carries no asset and its destination account is not
on the sample ledger, so the operation is a create-account of the native amount. -/
theorem Payment_operation_choice_witness :
    sampleHandler.keypairParse sampleRequest.source =
      some "GD4I7AFSLZGTDL34TQLWJOM2NHLIIOEKD5RHHZUW54HERBLSIRKUOXRR" ∧
    paymentOperation sampleHandler sampleRequest = .ok samplePrepared :=
  ⟨by decide,
    ((Payment_operation_choice sampleHandler sampleRequest
      "GD4I7AFSLZGTDL34TQLWJOM2NHLIIOEKD5RHHZUW54HERBLSIRKUOXRR"
      "GATKP6ZQM5CSLECPMTAC5226PE367QALCPM6AFHTSULPPZMT62OOPMQB"
      ⟨"GATKP6ZQM5CSLECPMTAC5226PE367QALCPM6AFHTSULPPZMT62OOPMQB", none, none⟩
      (by decide) (by decide) (by decide)).2.1 (by decide) (by decide)).2 (by decide)⟩

/-- C12: when `Validate` returns no error, `Port` and `Horizon` are set, `NetworkPassphrase`
is non-empty and `Database.Type` is `mysql`, `postgres` or `sqlite3`; the configuration is
then unchanged, except that for `mysql` only `Database.Url` is replaced, by the parsed url
written with a query that `Encode` joined from pieces among which is `parseTime=true`. -/
theorem Validate_no_error (lib : Parsers) (c : Config) (hok : (Validate lib c).2 = none) :
    c.Port ≠ none ∧ c.Horizon ≠ none ∧ c.NetworkPassphrase ≠ "" ∧
    (c.Database.Type_ = "mysql" ∨ c.Database.Type_ = "postgres" ∨
      c.Database.Type_ = "sqlite3") ∧
    (c.Database.Type_ ≠ "mysql" → (Validate lib c).1 = c) ∧
    (c.Database.Type_ = "mysql" →
      ∃ dbUrl pieces, lib.urlParse c.Database.Url = some dbUrl ∧
        "parseTime=true" ∈ pieces ∧
        (Validate lib c).1 =
          { c with
            Database :=
              { c.Database with
                Url := lib.urlString
                  { dbUrl with RawQuery := "&".intercalate pieces } } }) := by
  have hfst : ∀ (c1 : Config) (x : Config × Option String),
      x = (match validateAccounts lib c1 with
        | some e => (c1, some e)
        | none => (c1, validateHooks lib c1)) → x.1 = c1 := by
    intro c1 x hx
    rw [hx]
    split <;> rfl
  have hP : c.Port ≠ none := fun h => by simp [Validate, h] at hok
  obtain ⟨port, hport⟩ := Option.ne_none_iff_exists'.mp hP
  have hH : c.Horizon ≠ none := fun h => by simp [Validate, hport, h] at hok
  obtain ⟨horizon, hhorizon⟩ := Option.ne_none_iff_exists'.mp hH
  have hU : lib.urlParse horizon ≠ none := fun h => by
    simp [Validate, hport, hhorizon, h] at hok
  obtain ⟨u, hparse⟩ := Option.ne_none_iff_exists'.mp hU
  have hnp : c.NetworkPassphrase ≠ "" := fun h => by
    simp [Validate, hport, hhorizon, hparse, h] at hok
  have hD : lib.urlParse c.Database.Url ≠ none := fun h => by
    simp [Validate, hport, hhorizon, hparse, hnp, h] at hok
  obtain ⟨dbUrl, hdb⟩ := Option.ne_none_iff_exists'.mp hD
  have hval : Validate lib c =
      match validateDatabaseType lib c dbUrl with
      | .error e => (c, some e)
      | .ok c1 =>
        match validateAccounts lib c1 with
        | some e => (c1, some e)
        | none => (c1, validateHooks lib c1) := by
    unfold Validate
    simp only [hport, hhorizon, hparse, hnp, hdb, if_false]
  refine ⟨hP, hH, hnp, ?_⟩
  by_cases h1 : c.Database.Type_ = "mysql"
  · have hvd : validateDatabaseType lib c dbUrl = .ok
        { c with
          Database :=
            { c.Database with
              Url := lib.urlString
                { dbUrl with
                  RawQuery := "&".intercalate
                    ((lib.ParseQuery dbUrl.RawQuery).Set "parseTime" "true").components } } } := by
      unfold validateDatabaseType
      rw [if_pos h1]
      rfl
    rw [hvd] at hval
    refine ⟨Or.inl h1, fun h => absurd h1 h, fun _ => ?_⟩
    exact ⟨dbUrl, _, hdb, parseTime_mem_components _, hfst _ _ hval⟩
  · have hsame : validateDatabaseType lib c dbUrl = .ok c → (Validate lib c).1 = c := by
      intro hvd
      rw [hvd] at hval
      exact hfst _ _ hval
    by_cases h2 : c.Database.Type_ = "postgres"
    · refine ⟨Or.inr (Or.inl h2), fun _ => hsame ?_, fun h => absurd h h1⟩
      unfold validateDatabaseType
      rw [if_neg h1, if_pos h2]
    · by_cases h3 : c.Database.Type_ = "sqlite3"
      · refine ⟨Or.inr (Or.inr h3), fun _ => hsame ?_, fun h => absurd h h1⟩
        unfold validateDatabaseType
        rw [if_neg h1, if_neg h2, if_pos h3]
      · have hvd : validateDatabaseType lib c dbUrl =
            .error "Invalid database.type param" := by
          unfold validateDatabaseType
          rw [if_neg h1, if_neg h2, if_neg h3]
        rw [hval, hvd] at hok
        simp at hok

/-- Witness of C12: the sample mysql configuration is valid and its url gets the query
`parseTime=true`. -/
theorem Validate_no_error_witness :
    Validate sampleParsers mysqlConfig =
      ({ mysqlConfig with
          Database := ⟨"mysql", "mysql://root@localhost/gateway?parseTime=true"⟩ }, none) ∧
    mysqlConfig.Port ≠ none ∧ mysqlConfig.Horizon ≠ none :=
  ⟨by decide,
    (Validate_no_error sampleParsers mysqlConfig (by decide)).1,
    (Validate_no_error sampleParsers mysqlConfig (by decide)).2.1⟩

/-- Counterexample to C13: of two trailing slashes only one is removed, and the path passed
on still ends with a slash without being the root path. -/
theorem StripTrailingSlashMiddleware_double_slash :
    StripTrailingSlashMiddleware id "/a//" = "/a/" ∧
    ("/a/" : String).data.getLast? = some '/' ∧
    ("/a/" : String) ≠ "/" := by
  decide

/-- C13, amended: the middleware passes on the path without its last character when the path
is longer than one character and ends with a slash, and the path unchanged otherwise; the
path passed on ends with a slash only if it is the root path or the request's path ended
with two slashes. -/
theorem StripTrailingSlashMiddleware_path {α : Type} (next : String → α) (p : String) :
    ((1 < p.length ∧ p.data.getLast? = some '/') →
      StripTrailingSlashMiddleware next p = next ⟨p.data.dropLast⟩) ∧
    (¬ (1 < p.length ∧ p.data.getLast? = some '/') →
      StripTrailingSlashMiddleware next p = next p) ∧
    ((StripTrailingSlashMiddleware id p).data.getLast? = some '/' →
      StripTrailingSlashMiddleware id p = "/" ∨ ∃ ys, p.data = ys ++ ['/', '/']) := by
  have hcond : (1 < p.utf8ByteSize ∧ p.data.getLast? = some '/') ↔
      (1 < p.length ∧ p.data.getLast? = some '/') := by
    constructor
    · rintro ⟨h1, h2⟩; exact ⟨(one_lt_utf8ByteSize_iff p h2).mp h1, h2⟩
    · rintro ⟨h1, h2⟩; exact ⟨(one_lt_utf8ByteSize_iff p h2).mpr h1, h2⟩
  refine ⟨fun h => ?_, fun h => ?_, fun h => ?_⟩
  · simp only [StripTrailingSlashMiddleware, if_pos (hcond.mpr h)]
  · simp only [StripTrailingSlashMiddleware, if_neg (fun hh => h (hcond.mp hh))]
  · by_cases hc : 1 < p.length ∧ p.data.getLast? = some '/'
    · right
      simp only [StripTrailingSlashMiddleware, if_pos (hcond.mpr hc), id] at h
      obtain ⟨ys, hys⟩ := List.getLast?_eq_some_iff.mp hc.2
      rw [hys, List.dropLast_concat] at h
      obtain ⟨zs, hzs⟩ := List.getLast?_eq_some_iff.mp h
      exact ⟨zs, by rw [hys, hzs]; simp⟩
    · left
      simp only [StripTrailingSlashMiddleware, if_neg (fun hh => hc (hcond.mp hh)), id] at h ⊢
      obtain ⟨ys, hys⟩ := List.getLast?_eq_some_iff.mp h
      have hlen : ¬ 1 < p.length := fun hl => hc ⟨hl, h⟩
      have hys2 : ys = [] := by
        cases ys with
        | nil => rfl
        | cons c cs =>
          exfalso; apply hlen
          simp [String.length, hys]
      subst hys2
      cases p with
      | mk data =>
        simp only [List.nil_append] at hys
        subst hys
        rfl

/-- C10, at the failing input: the request carries no memo and its destination resolves
with the memo type `hash` and a nil memo value. The handler passes the check of the memo
type at line 85, dereferences the nil `Memo` at line 93 and panics: it writes no response,
where the claim has a bad request for a memo type other than `id` and `text`. -/
theorem Payment_nil_memo_panics :
    nilMemoHandler.Resolve federatedRequestNoMemo.destination =
      some ⟨"GATKP6ZQM5CSLECPMTAC5226PE367QALCPM6AFHTSULPPZMT62OOPMQB", some "hash", none⟩ ∧
    federatedRequestNoMemo.memo_type = "" ∧ federatedRequestNoMemo.memo = "" ∧
    Payment nilMemoHandler federatedRequestNoMemo =
      ⟨[Call.Resolve "bob*example.com",
        Call.LoadAccount "GATKP6ZQM5CSLECPMTAC5226PE367QALCPM6AFHTSULPPZMT62OOPMQB"],
        .panic⟩ ∧
    (Payment nilMemoHandler federatedRequestNoMemo).response.statusCode = none := by
  decide

end Gateway
